import Mathlib

/-!
Verification of the PersonalTradeAssist data-fusion and scoring pipeline.

The definitions below are a shallow embedding of the Python source:
Python floats are modelled as rationals (`ℚ`), Python `None` as `Option`,
Python dicts holding the published snapshot as a structure of optional
fields, and the stateful update cycle as explicit state passing.
-/

namespace TradeAssist

/-! ## Volatility zones (main.py, determine_volatility_zone) -/

/-- Embedding of `determine_volatility_zone` from `main.py`: classifies a
volatility percentage into a zone/strategy pair, with `None` mapped to the
explicit Unknown pair. -/
def determine_volatility_zone (volatility : Option ℚ) : String × String :=
  match volatility with
  | none => ("Unknown Volatility", "Unknown Strategy")
  | some v =>
    if v ≤ 3 then ("Very Low Volatility", "Micro Scalping Strategy")
    else if v ≤ 7 then ("Low Volatility", "Short-Term Tight Strategy")
    else if v ≤ 12 then ("Medium Volatility", "Balanced Normal Strategy")
    else if v ≤ 18 then ("High Volatility", "Flexible Swing Strategy")
    else ("Very High Volatility", "Big Swing Survival Strategy")

/-- Index of the numeric bucket a volatility value falls into, following the
same threshold cascade as `determine_volatility_zone`. -/
def zoneIndex (v : ℚ) : Fin 5 :=
  if v ≤ 3 then 0
  else if v ≤ 7 then 1
  else if v ≤ 12 then 2
  else if v ≤ 18 then 3
  else 4

/-- The five zone/strategy pairs of `determine_volatility_zone`, by bucket. -/
def zoneLabel : Fin 5 → String × String
  | 0 => ("Very Low Volatility", "Micro Scalping Strategy")
  | 1 => ("Low Volatility", "Short-Term Tight Strategy")
  | 2 => ("Medium Volatility", "Balanced Normal Strategy")
  | 3 => ("High Volatility", "Flexible Swing Strategy")
  | 4 => ("Very High Volatility", "Big Swing Survival Strategy")

/-! ## Momentum health (modules/momentum_analysis.py, calculate_momentum_health) -/

/-- Embedding of `calculate_momentum_health`: qualitative momentum label from
an optional RSI and an optional volume-divergence flag (the source tests
`volume_divergence is True`, i.e. `some true` here). -/
def calculate_momentum_health (rsi : Option ℚ) (volume_divergence : Option Bool) : String :=
  match rsi with
  | none => "unknown"
  | some r =>
    if volume_divergence = some true then "weak"
    else if r > 75 then "weak"
    else if r < 30 then "oversold but healthy"
    else if 40 ≤ r ∧ r ≤ 65 then "strong"
    else "neutral"

/-! ## Breakout scoring (modules/breakout_scoring.py) -/

/-- Threshold constant `CG_COMMUNITY_SCORE_THRESHOLD` from
`modules/breakout_scoring.py`. -/
def CG_COMMUNITY_SCORE_THRESHOLD : ℚ := 60

/-- Threshold constant `CG_DEVELOPER_SCORE_THRESHOLD`. -/
def CG_DEVELOPER_SCORE_THRESHOLD : ℚ := 65

/-- Threshold constant `CG_PUBLIC_INTEREST_SCORE_THRESHOLD`. -/
def CG_PUBLIC_INTEREST_SCORE_THRESHOLD : ℚ := 30

/-- Threshold constant `CG_SENTIMENT_THRESHOLD`. -/
def CG_SENTIMENT_THRESHOLD : ℚ := 70

/-- The named arguments of `calculate_breakout_score`, with the source's
default values. -/
structure BreakoutInput where
  rsi : Option ℚ
  volume_rising : Bool
  spread_percent : Option ℚ := none
  orderbook_thin : Bool := false
  momentum_health : String := "strong"
  news_sentiment : String := "neutral"
  btc_inflow_spike : Bool := false
  cg_sentiment_percentage : Option ℚ := none
  cg_community_score : Option ℚ := none
  cg_developer_score : Option ℚ := none
  cg_public_interest_score : Option ℚ := none
deriving DecidableEq, Repr

/-- Embedding of `calculate_breakout_score`: the source starts from 0 and
accumulates one conditional increment per signal group, in this order.
Each `if`/`elif` chain of the source is one summand here. -/
def calculate_breakout_score (i : BreakoutInput) : ℤ :=
  (if i.momentum_health = "strong" then 2
   else if i.momentum_health = "oversold but healthy" then 1 else 0)
  + (i.rsi.elim 0 fun r => if 40 ≤ r ∧ r < 70 then 1 else if 75 ≤ r then -1 else 0)
  + (if i.volume_rising then 1 else 0)
  + (i.spread_percent.elim 0 fun s => if s < 1/2 then 1 else 0)
  + (if i.news_sentiment = "positive" then 1
     else if i.news_sentiment = "negative" then -1 else 0)
  + (i.cg_community_score.elim 0 fun c => if CG_COMMUNITY_SCORE_THRESHOLD ≤ c then 1 else 0)
  + (i.cg_developer_score.elim 0 fun c => if CG_DEVELOPER_SCORE_THRESHOLD ≤ c then 1 else 0)
  + (i.cg_public_interest_score.elim 0 fun c => if CG_PUBLIC_INTEREST_SCORE_THRESHOLD ≤ c then 1 else 0)
  + (i.cg_sentiment_percentage.elim 0 fun c => if CG_SENTIMENT_THRESHOLD ≤ c then 1 else 0)
  + (if i.orderbook_thin then -1 else 0)
  + (if i.btc_inflow_spike then -2 else 0)

/-- Restatement of the spec's rule table (section 4.4): one independent
indicator-delta summand per table row, unavailable values contributing zero.
Written from the spec's words, to be compared with the source embedding. -/
def breakoutDeltaSum (i : BreakoutInput) : ℤ :=
  (if i.momentum_health = "strong" then 2 else 0)
  + (if i.momentum_health = "oversold but healthy" then 1 else 0)
  + (i.rsi.elim 0 fun r => if 40 ≤ r ∧ r < 70 then 1 else 0)
  + (i.rsi.elim 0 fun r => if 75 ≤ r then -1 else 0)
  + (if i.volume_rising then 1 else 0)
  + (i.spread_percent.elim 0 fun s => if s < 1/2 then 1 else 0)
  + (if i.news_sentiment = "positive" then 1 else 0)
  + (if i.news_sentiment = "negative" then -1 else 0)
  + (i.cg_community_score.elim 0 fun c => if CG_COMMUNITY_SCORE_THRESHOLD ≤ c then 1 else 0)
  + (i.cg_developer_score.elim 0 fun c => if CG_DEVELOPER_SCORE_THRESHOLD ≤ c then 1 else 0)
  + (i.cg_public_interest_score.elim 0 fun c => if CG_PUBLIC_INTEREST_SCORE_THRESHOLD ≤ c then 1 else 0)
  + (i.cg_sentiment_percentage.elim 0 fun c => if CG_SENTIMENT_THRESHOLD ≤ c then 1 else 0)
  + (if i.orderbook_thin then -1 else 0)
  + (if i.btc_inflow_spike then -2 else 0)

/-! ## RSI (modules/momentum_analysis.py, calculate_rsi) -/

/-- Embedding of `np.diff`: successive differences of a series. -/
def diffs : List ℚ → List ℚ
  | [] => []
  | [_] => []
  | a :: b :: rest => (b - a) :: diffs (b :: rest)

/-- Embedding of `np.where(delta > 0, delta, 0)`. -/
def gains (delta : List ℚ) : List ℚ :=
  delta.map (fun d => if 0 < d then d else 0)

/-- Embedding of `np.where(delta < 0, -delta, 0)`. -/
def losses (delta : List ℚ) : List ℚ :=
  delta.map (fun d => if d < 0 then -d else 0)

/-- Embedding of `np.mean(l[:period])`: simple average over the first
`period` entries. -/
def avgFirst (l : List ℚ) (period : ℕ) : ℚ :=
  (l.take period).sum / period

/-- One iteration of the Wilder-smoothing loop of `calculate_rsi`, including
the source's nudge of a zero average loss to `0.00001`. -/
def wilderStep (period : ℕ) (p : ℚ × ℚ) (gl : ℚ × ℚ) : ℚ × ℚ :=
  let ag := (p.1 * (period - 1 : ℕ) + gl.1) / period
  let al := (p.2 * (period - 1 : ℕ) + gl.2) / period
  (ag, if al = 0 then 1/100000 else al)

/-- Round-half-to-even on rationals, the rounding Python's `round` applies. -/
def roundHalfEven (q : ℚ) : ℤ :=
  let f := ⌊q⌋
  let frac := q - f
  if frac < 1/2 then f
  else if 1/2 < frac then f + 1
  else if f % 2 = 0 then f else f + 1

/-- Embedding of Python's `round(q, 2)`. -/
def round2 (q : ℚ) : ℚ :=
  (roundHalfEven (q * 100) : ℚ) / 100

/-- Embedding of `calculate_rsi`: returns `none` when fewer than
`period + 1` closes are supplied; returns 100 (or 50 when the average gain
is also zero) when the first-window average loss is exactly zero; otherwise
applies Wilder smoothing over the remaining deltas and rounds to two
decimals. -/
def calculate_rsi (closes : List ℚ) (period : ℕ := 14) : Option ℚ :=
  if closes.length < period + 1 then none
  else
    let delta := diffs closes
    let gain := gains delta
    let loss := losses delta
    let avg_gain := avgFirst gain period
    let avg_loss := avgFirst loss period
    if avg_loss = 0 then
      if avg_gain = 0 then some 50 else some 100
    else
      let stepped := ((gain.drop period).zip (loss.drop period)).foldl
        (wilderStep period) (avg_gain, avg_loss)
      let rs := if stepped.2 ≠ 0 then stepped.1 / stepped.2 else 100
      some (round2 (100 - 100 / (1 + rs)))

/-! ## Published snapshot state (main.py, update_data) -/

/-- The `sentiment_data` dict of `main.py`, one optional field per key the
full update cycle installs; an absent key is `none`. Coin records and the
update summary are abstracted to their identifying payloads. -/
structure SnapshotDict where
  timestamp : Option String
  fear_greed : Option (ℤ × String)
  processed_coins : Option (List String)
  update_summary : Option (ℕ × ℕ)
deriving DecidableEq, Repr

/-- The snapshot contents `update_data` installs at the end of a successful
cycle. -/
def newSnapshot (ts : String) (fg : ℤ × String) (coins : List String)
    (summary : ℕ × ℕ) : SnapshotDict :=
  { timestamp := some ts, fear_greed := some fg,
    processed_coins := some coins, update_summary := some summary }

/-- The sequence of states the shared `sentiment_data` dict passes through
while `update_data` publishes (main.py lines 520-530): the old snapshot,
then `sentiment_data.clear()`, then one state per key assignment. A reader
interleaved with the publish observes one of these states. -/
def publishStates (old : SnapshotDict) (ts : String) (fg : ℤ × String)
    (coins : List String) (summary : ℕ × ℕ) : List SnapshotDict :=
  let s1 : SnapshotDict :=
    { timestamp := none, fear_greed := none,
      processed_coins := none, update_summary := none }
  let s2 := { s1 with timestamp := some ts }
  let s3 := { s2 with fear_greed := some fg }
  let s4 := { s3 with processed_coins := some coins }
  let s5 := { s4 with update_summary := some summary }
  [old, s1, s2, s3, s4, s5]

/-- The mutable globals of `main.py` that a full update cycle touches. The
raw ticker map is abstracted to symbol/price pairs. -/
structure AppState where
  market_data : List (String × ℚ)
  sentiment_data : SnapshotDict
  last_full_update_time : Option String
deriving DecidableEq, Repr

/-- State effect of `update_data` (main.py): if the initial ticker fetch
yields no data (`if not bybit_market_data: return`, checked before any
assignment), the cycle aborts with every global unchanged; otherwise the
globals are replaced with the fetched universe and the newly built
snapshot. The per-coin analysis outputs are abstracted as the `coins` and
`summary` parameters. -/
def update_data (st : AppState) (fetched : List (String × ℚ)) (ts : String)
    (fg : ℤ × String) (coins : List String) (summary : ℕ × ℕ) : AppState :=
  if fetched = [] then st
  else
    { market_data := fetched,
      sentiment_data := newSnapshot ts fg coins summary,
      last_full_update_time := some ts }

/-- Modelled from the spec: the trading-signal rule of section 4.4 -- the
implementation in `main.py` assigns the constant below instead. BUY iff
score at least 5, multi-timeframe confirmed, fear/greed above 40 and strong
momentum; otherwise SELL/AVOID iff score at most 1, fear/greed below 30 or
weak momentum; otherwise CAUTION; first matching rule wins. -/
def spec_signal (score : ℤ) (mtf : Bool) (fearGreed : ℤ)
    (momentumHealth : String) : String :=
  if 5 ≤ score ∧ mtf = true ∧ 40 < fearGreed ∧ momentumHealth = "strong" then "BUY"
  else if score ≤ 1 ∨ fearGreed < 30 ∨ momentumHealth = "weak" then "SELL/AVOID"
  else "CAUTION"

/-- Embedding of the signal assignment of `update_data` (main.py line 459):
`signal = "NEUTRAL"` followed only by the comment placeholder
`# ... (signal logic as before, adjust thresholds if needed) ...`, so every
published coin record carries the constant signal regardless of score,
multi-timeframe confirmation, fear/greed or momentum health. -/
def published_signal (score : ℤ) (mtf : Bool) (fearGreed : ℤ)
    (momentumHealth : String) : String :=
  let _ := (score, mtf, fearGreed, momentumHealth)
  "NEUTRAL"

/-! ## Symbol-detail cache (modules/coingecko_proxy.py, fetch_coingecko_metrics) -/

/-- The per-coin metrics dict the CoinGecko proxy caches, abstracted to
key/value pairs. -/
def Metrics : Type := List (String × ℚ)

instance : DecidableEq Metrics := by
  unfold Metrics
  infer_instance

/-- Constant `COIN_DETAIL_CACHE_DURATION` (two hours, in seconds) from
`modules/coingecko_proxy.py`. -/
def COIN_DETAIL_CACHE_DURATION : ℚ := 2 * 60 * 60

/-- Embedding of the cache logic of `fetch_coingecko_metrics`
(modules/coingecko_proxy.py): given the resolved slug, the current detail
cache entry for it, the current time and the outcome of the provider fetch,
returns the metrics dict handed to the caller together with the updated
cache entry. A failed slug lookup or a failed fetch returns the empty dict;
a cache entry younger than the TTL is returned without consulting the
fetch; a stale entry is ignored in favour of the fetch outcome and left in
place when the fetch fails. -/
def fetch_coingecko_metrics (coin_id : Option String)
    (cached : Option (ℚ × Metrics)) (now : ℚ) (fetchResult : Option Metrics) :
    Metrics × Option (ℚ × Metrics) :=
  match coin_id with
  | none => ([], cached)
  | some _ =>
    match cached with
    | some (cache_time, cached_data) =>
      if now - cache_time < COIN_DETAIL_CACHE_DURATION then (cached_data, cached)
      else
        match fetchResult with
        | some metrics => (metrics, some (now, metrics))
        | none => ([], cached)
    | none =>
      match fetchResult with
      | some metrics => (metrics, some (now, metrics))
      | none => ([], cached)

/-! ## Helper lemmas: breakout scoring -/

/-- The momentum if/elif chain equals the sum of its two indicator rows. -/
lemma momChain_split (mh : String) :
    (if mh = "strong" then (2 : ℤ)
     else if mh = "oversold but healthy" then 1 else 0)
    = (if mh = "strong" then 2 else 0)
      + (if mh = "oversold but healthy" then 1 else 0) := by
  by_cases h1 : mh = "strong"
  · subst h1
    simp
  · simp [h1]

/-- The RSI if/elif chain equals the sum of its two indicator rows. -/
lemma rsiChain_split (o : Option ℚ) :
    (o.elim 0 fun r => if 40 ≤ r ∧ r < 70 then (1 : ℤ) else if 75 ≤ r then -1 else 0)
    = (o.elim 0 fun r => if 40 ≤ r ∧ r < 70 then 1 else 0)
      + (o.elim 0 fun r => if 75 ≤ r then -1 else 0) := by
  cases o with
  | none => simp
  | some r =>
    by_cases h1 : 40 ≤ r ∧ r < 70
    · have h2 : ¬ (75 : ℚ) ≤ r := by
        push_neg
        linarith [h1.2]
      simp [h1, h2]
    · simp [h1]

/-- The news-sentiment if/elif chain equals the sum of its two indicator
rows. -/
lemma newsChain_split (ns : String) :
    (if ns = "positive" then (1 : ℤ)
     else if ns = "negative" then -1 else 0)
    = (if ns = "positive" then 1 else 0)
      + (if ns = "negative" then -1 else 0) := by
  by_cases h1 : ns = "positive"
  · subst h1
    simp
  · simp [h1]

/-- The source's sequential accumulation equals the spec's per-row delta
sum. -/
lemma score_eq_deltaSum (i : BreakoutInput) :
    calculate_breakout_score i = breakoutDeltaSum i := by
  unfold calculate_breakout_score breakoutDeltaSum
  rw [momChain_split, rsiChain_split, newsChain_split]
  ring

/-- The momentum row pair contributes between 0 and 2. -/
lemma momPair_bounds (mh : String) :
    0 ≤ (if mh = "strong" then (2 : ℤ) else 0)
        + (if mh = "oversold but healthy" then 1 else 0)
    ∧ (if mh = "strong" then (2 : ℤ) else 0)
        + (if mh = "oversold but healthy" then 1 else 0) ≤ 2 := by
  by_cases h1 : mh = "strong"
  · subst h1
    simp
  · by_cases h2 : mh = "oversold but healthy" <;> simp [h1, h2]

/-- The RSI row pair contributes between -1 and 1. -/
lemma rsiPair_bounds (o : Option ℚ) :
    -1 ≤ (o.elim 0 fun r => if 40 ≤ r ∧ r < 70 then (1 : ℤ) else 0)
        + (o.elim 0 fun r => if 75 ≤ r then -1 else 0)
    ∧ (o.elim 0 fun r => if 40 ≤ r ∧ r < 70 then (1 : ℤ) else 0)
        + (o.elim 0 fun r => if 75 ≤ r then -1 else 0) ≤ 1 := by
  cases o with
  | none => simp
  | some r =>
    by_cases h1 : 40 ≤ r ∧ r < 70
    · have h2 : ¬ (75 : ℚ) ≤ r := by
        push_neg
        linarith [h1.2]
      simp [h1, h2]
    · by_cases h2 : (75 : ℚ) ≤ r <;> simp [h1, h2]

/-- The news row pair contributes between -1 and 1. -/
lemma newsPair_bounds (ns : String) :
    -1 ≤ (if ns = "positive" then (1 : ℤ) else 0)
        + (if ns = "negative" then -1 else 0)
    ∧ (if ns = "positive" then (1 : ℤ) else 0)
        + (if ns = "negative" then -1 else 0) ≤ 1 := by
  by_cases h1 : ns = "positive"
  · subst h1
    simp
  · by_cases h2 : ns = "negative" <;> simp [h1, h2]

/-- An optional at-least-threshold indicator contributes 0 or 1. -/
lemma leIndicator_bounds (o : Option ℚ) (th : ℚ) :
    0 ≤ (o.elim 0 fun c => if th ≤ c then (1 : ℤ) else 0)
    ∧ (o.elim 0 fun c => if th ≤ c then (1 : ℤ) else 0) ≤ 1 := by
  cases o with
  | none => simp
  | some c => by_cases h : th ≤ c <;> simp [h]

/-- An optional below-threshold indicator contributes 0 or 1. -/
lemma ltIndicator_bounds (o : Option ℚ) (th : ℚ) :
    0 ≤ (o.elim 0 fun s => if s < th then (1 : ℤ) else 0)
    ∧ (o.elim 0 fun s => if s < th then (1 : ℤ) else 0) ≤ 1 := by
  cases o with
  | none => simp
  | some s => by_cases h : s < th <;> simp [h]

/-- A boolean indicator with delta `k` contributes 0 or `k`. -/
lemma boolIndicator_bounds (b : Bool) (k : ℤ) :
    min k 0 ≤ (if b then k else 0) ∧ (if b then k else 0) ≤ max k 0 := by
  cases b <;> simp

/-! ## Claim C1 -/

/-- C1: for every combination of signal inputs, `calculate_breakout_score`
returns exactly the sum of the fixed deltas of the spec's rule table for
the signals whose condition holds (strong momentum +2, oversold-but-healthy
+1, RSI in [40,70) +1, RSI at least 75 -1, volume rising +1, spread below
0.5 +1, positive news +1, negative news -1, each CoinGecko metric at or
above its named threshold +1, thin order book -1, exchange-inflow spike
-2), with no normalization; unavailable (`none`) signals contribute zero;
the function is pure, so determinism is immediate; and removing any single
true signal changes the score by exactly that signal's documented delta. -/
theorem breakout_score_matches_delta_table (i : BreakoutInput) :
    calculate_breakout_score i = breakoutDeltaSum i
    ∧ (i.momentum_health = "strong" →
        calculate_breakout_score { i with momentum_health := "neutral" }
          = calculate_breakout_score i - 2)
    ∧ (i.momentum_health = "oversold but healthy" →
        calculate_breakout_score { i with momentum_health := "neutral" }
          = calculate_breakout_score i - 1)
    ∧ (∀ r : ℚ, i.rsi = some r → 40 ≤ r ∧ r < 70 →
        calculate_breakout_score { i with rsi := none }
          = calculate_breakout_score i - 1)
    ∧ (∀ r : ℚ, i.rsi = some r → 75 ≤ r →
        calculate_breakout_score { i with rsi := none }
          = calculate_breakout_score i + 1)
    ∧ (i.volume_rising = true →
        calculate_breakout_score { i with volume_rising := false }
          = calculate_breakout_score i - 1)
    ∧ (∀ s : ℚ, i.spread_percent = some s → s < 1/2 →
        calculate_breakout_score { i with spread_percent := none }
          = calculate_breakout_score i - 1)
    ∧ (i.news_sentiment = "positive" →
        calculate_breakout_score { i with news_sentiment := "neutral" }
          = calculate_breakout_score i - 1)
    ∧ (i.news_sentiment = "negative" →
        calculate_breakout_score { i with news_sentiment := "neutral" }
          = calculate_breakout_score i + 1)
    ∧ (∀ c : ℚ, i.cg_community_score = some c → CG_COMMUNITY_SCORE_THRESHOLD ≤ c →
        calculate_breakout_score { i with cg_community_score := none }
          = calculate_breakout_score i - 1)
    ∧ (∀ c : ℚ, i.cg_developer_score = some c → CG_DEVELOPER_SCORE_THRESHOLD ≤ c →
        calculate_breakout_score { i with cg_developer_score := none }
          = calculate_breakout_score i - 1)
    ∧ (∀ c : ℚ, i.cg_public_interest_score = some c →
        CG_PUBLIC_INTEREST_SCORE_THRESHOLD ≤ c →
        calculate_breakout_score { i with cg_public_interest_score := none }
          = calculate_breakout_score i - 1)
    ∧ (∀ c : ℚ, i.cg_sentiment_percentage = some c → CG_SENTIMENT_THRESHOLD ≤ c →
        calculate_breakout_score { i with cg_sentiment_percentage := none }
          = calculate_breakout_score i - 1)
    ∧ (i.orderbook_thin = true →
        calculate_breakout_score { i with orderbook_thin := false }
          = calculate_breakout_score i + 1)
    ∧ (i.btc_inflow_spike = true →
        calculate_breakout_score { i with btc_inflow_spike := false }
          = calculate_breakout_score i + 2) := by
  obtain ⟨rsi, vr, sp, ot, mh, ns, bis, csent, ccomm, cdev, cpub⟩ := i
  refine ⟨score_eq_deltaSum _, ?_, ?_, ?_, ?_, ?_, ?_, ?_, ?_, ?_, ?_, ?_, ?_, ?_, ?_⟩
  · intro h
    subst h
    rw [score_eq_deltaSum, score_eq_deltaSum]
    simp [breakoutDeltaSum]
    try ring
  · intro h
    subst h
    rw [score_eq_deltaSum, score_eq_deltaSum]
    simp [breakoutDeltaSum]
    try ring
  · intro r hr hcond
    subst hr
    have h75 : ¬ (75 : ℚ) ≤ r := by
      push_neg
      linarith [hcond.2]
    rw [score_eq_deltaSum, score_eq_deltaSum]
    simp [breakoutDeltaSum, hcond.1, hcond.2, h75]
    try ring
  · intro r hr h75
    subst hr
    have hnh : ¬ (40 ≤ r ∧ r < 70) := by
      rintro ⟨_, h2⟩
      linarith
    rw [score_eq_deltaSum, score_eq_deltaSum]
    simp [breakoutDeltaSum, hnh, h75]
    try ring
  · intro h
    subst h
    rw [score_eq_deltaSum, score_eq_deltaSum]
    simp [breakoutDeltaSum]
    try ring
  · intro s hs hlt
    subst hs
    rw [score_eq_deltaSum, score_eq_deltaSum]
    simp only [breakoutDeltaSum, Option.elim_none, Option.elim_some]
    rw [if_pos hlt]
    ring
  · intro h
    subst h
    rw [score_eq_deltaSum, score_eq_deltaSum]
    simp [breakoutDeltaSum]
    try ring
  · intro h
    subst h
    rw [score_eq_deltaSum, score_eq_deltaSum]
    simp [breakoutDeltaSum]
    try ring
  · intro c hc hth
    subst hc
    rw [score_eq_deltaSum, score_eq_deltaSum]
    simp [breakoutDeltaSum, hth]
    try ring
  · intro c hc hth
    subst hc
    rw [score_eq_deltaSum, score_eq_deltaSum]
    simp [breakoutDeltaSum, hth]
    try ring
  · intro c hc hth
    subst hc
    rw [score_eq_deltaSum, score_eq_deltaSum]
    simp [breakoutDeltaSum, hth]
    try ring
  · intro c hc hth
    subst hc
    rw [score_eq_deltaSum, score_eq_deltaSum]
    simp [breakoutDeltaSum, hth]
    try ring
  · intro h
    subst h
    rw [score_eq_deltaSum, score_eq_deltaSum]
    simp [breakoutDeltaSum]
    try ring
  · intro h
    subst h
    rw [score_eq_deltaSum, score_eq_deltaSum]
    simp [breakoutDeltaSum]
    try ring

/-- A breakout input with every positively-scored signal active and both
penalty flags set. -/
def iAllOn : BreakoutInput :=
  { rsi := some 50, volume_rising := true, spread_percent := some (1/4),
    orderbook_thin := true, momentum_health := "strong",
    news_sentiment := "positive", btc_inflow_spike := true,
    cg_sentiment_percentage := some 80, cg_community_score := some 70,
    cg_developer_score := some 70, cg_public_interest_score := some 40 }

/-- A breakout input exercising the oversold, overbought and negative-news
rows. -/
def iOversold : BreakoutInput :=
  { rsi := some 80, volume_rising := false,
    momentum_health := "oversold but healthy", news_sentiment := "negative" }

/-- Witness for C1: the delta-table equation and every removal conjunct
instantiated at concrete inputs. -/
theorem breakout_score_matches_delta_table_witness :
    calculate_breakout_score iAllOn = breakoutDeltaSum iAllOn
    ∧ calculate_breakout_score { iAllOn with momentum_health := "neutral" }
        = calculate_breakout_score iAllOn - 2
    ∧ calculate_breakout_score { iOversold with momentum_health := "neutral" }
        = calculate_breakout_score iOversold - 1
    ∧ calculate_breakout_score { iAllOn with rsi := none }
        = calculate_breakout_score iAllOn - 1
    ∧ calculate_breakout_score { iOversold with rsi := none }
        = calculate_breakout_score iOversold + 1
    ∧ calculate_breakout_score { iAllOn with volume_rising := false }
        = calculate_breakout_score iAllOn - 1
    ∧ calculate_breakout_score { iAllOn with spread_percent := none }
        = calculate_breakout_score iAllOn - 1
    ∧ calculate_breakout_score { iAllOn with news_sentiment := "neutral" }
        = calculate_breakout_score iAllOn - 1
    ∧ calculate_breakout_score { iOversold with news_sentiment := "neutral" }
        = calculate_breakout_score iOversold + 1
    ∧ calculate_breakout_score { iAllOn with cg_community_score := none }
        = calculate_breakout_score iAllOn - 1
    ∧ calculate_breakout_score { iAllOn with cg_developer_score := none }
        = calculate_breakout_score iAllOn - 1
    ∧ calculate_breakout_score { iAllOn with cg_public_interest_score := none }
        = calculate_breakout_score iAllOn - 1
    ∧ calculate_breakout_score { iAllOn with cg_sentiment_percentage := none }
        = calculate_breakout_score iAllOn - 1
    ∧ calculate_breakout_score { iAllOn with orderbook_thin := false }
        = calculate_breakout_score iAllOn + 1
    ∧ calculate_breakout_score { iAllOn with btc_inflow_spike := false }
        = calculate_breakout_score iAllOn + 2 := by
  obtain ⟨a1, a2, -, a4, -, a6, a7, a8, -, a10, a11, a12, a13, a14, a15⟩ :=
    breakout_score_matches_delta_table iAllOn
  obtain ⟨-, -, b3, -, b5, -, -, -, b9, -, -, -, -, -, -⟩ :=
    breakout_score_matches_delta_table iOversold
  exact ⟨a1, a2 rfl, b3 rfl, a4 50 rfl (by norm_num), b5 80 rfl (by norm_num),
    a6 rfl, a7 (1/4) rfl (by norm_num), a8 rfl, b9 rfl,
    a10 70 rfl (by norm_num [CG_COMMUNITY_SCORE_THRESHOLD]),
    a11 70 rfl (by norm_num [CG_DEVELOPER_SCORE_THRESHOLD]),
    a12 40 rfl (by norm_num [CG_PUBLIC_INTEREST_SCORE_THRESHOLD]),
    a13 80 rfl (by norm_num [CG_SENTIMENT_THRESHOLD]),
    a14 rfl, a15 rfl⟩

/-! ## Claim C7 -/

/-- C7: for all inputs the breakout score stays within -5..+10, even though
the source applies no clamping: the simultaneously satisfiable negative
deltas sum to -5 and the simultaneously satisfiable positive deltas sum to
+10. -/
theorem breakout_score_bounded (i : BreakoutInput) :
    -5 ≤ calculate_breakout_score i ∧ calculate_breakout_score i ≤ 10 := by
  rw [score_eq_deltaSum i]
  unfold breakoutDeltaSum
  obtain ⟨m1, m2⟩ := momPair_bounds i.momentum_health
  obtain ⟨r1, r2⟩ := rsiPair_bounds i.rsi
  obtain ⟨v1, v2⟩ := boolIndicator_bounds i.volume_rising 1
  obtain ⟨sp1, sp2⟩ := ltIndicator_bounds i.spread_percent (1/2)
  obtain ⟨n1, n2⟩ := newsPair_bounds i.news_sentiment
  obtain ⟨c1, c2⟩ := leIndicator_bounds i.cg_community_score CG_COMMUNITY_SCORE_THRESHOLD
  obtain ⟨d1, d2⟩ := leIndicator_bounds i.cg_developer_score CG_DEVELOPER_SCORE_THRESHOLD
  obtain ⟨p1, p2⟩ := leIndicator_bounds i.cg_public_interest_score CG_PUBLIC_INTEREST_SCORE_THRESHOLD
  obtain ⟨q1, q2⟩ := leIndicator_bounds i.cg_sentiment_percentage CG_SENTIMENT_THRESHOLD
  obtain ⟨t1, t2⟩ := boolIndicator_bounds i.orderbook_thin (-1)
  obtain ⟨f1, f2⟩ := boolIndicator_bounds i.btc_inflow_spike (-2)
  norm_num at v1 v2 t1 t2 f1 f2
  constructor <;> linarith

/-! ## Claim C5 -/

/-- C5 counterexample: a negative volatility input does not map to the
Unknown zone as the claim states; the source's first threshold test
`volatility <= 3` already captures it, so -1 lands in the Very Low bucket. -/
theorem negative_volatility_counterexample :
    determine_volatility_zone (some (-1))
      = ("Very Low Volatility", "Micro Scalping Strategy")
    ∧ determine_volatility_zone (some (-1))
      ≠ ("Unknown Volatility", "Unknown Strategy") := by
  constructor
  · rfl
  · decide

/-- C5 amended: `determine_volatility_zone` buckets every input by the
documented thresholds into exactly one of five pairwise-distinct zones, the
bucket index is monotone in the volatility, and `none` maps to the explicit
Unknown zone; a negative input, however, falls into the Very Low bucket
rather than Unknown. -/
theorem volatility_zone_bucketing :
    determine_volatility_zone none = ("Unknown Volatility", "Unknown Strategy")
    ∧ (∀ v : ℚ, determine_volatility_zone (some v) = zoneLabel (zoneIndex v))
    ∧ (∀ a b : ℚ, a ≤ b → zoneIndex a ≤ zoneIndex b)
    ∧ (∀ j k : Fin 5, j ≠ k → zoneLabel j ≠ zoneLabel k)
    ∧ (∀ v : ℚ, v < 0 →
        determine_volatility_zone (some v)
          = ("Very Low Volatility", "Micro Scalping Strategy")) := by
  refine ⟨rfl, ?_, ?_, ?_, ?_⟩
  · intro v
    simp only [determine_volatility_zone]
    unfold zoneIndex
    split_ifs <;> simp [zoneLabel]
  · intro a b hab
    unfold zoneIndex
    split_ifs <;> first | decide | (exfalso; linarith)
  · decide
  · intro v hv
    have h3 : v ≤ 3 := by linarith
    simp only [determine_volatility_zone]
    rw [if_pos h3]

/-- Witness for C5 amended: the bucket equation at 5, monotonicity at a
concrete ordered pair, distinctness of two zones, and a negative input. -/
theorem volatility_zone_bucketing_witness :
    determine_volatility_zone (some 5) = zoneLabel (zoneIndex 5)
    ∧ zoneIndex 2 ≤ zoneIndex 9
    ∧ zoneLabel 0 ≠ zoneLabel 1
    ∧ determine_volatility_zone (some (-3))
        = ("Very Low Volatility", "Micro Scalping Strategy") := by
  obtain ⟨-, h2, h3, h4, h5⟩ := volatility_zone_bucketing
  exact ⟨h2 5, h3 2 9 (by norm_num), h4 0 1 (by decide), h5 (-3) (by norm_num)⟩

/-! ## Claim C8 -/

/-- C8: `calculate_momentum_health` returns unknown when RSI is absent;
weak when the divergence flag is true or RSI exceeds 75; then oversold but
healthy below 30; then strong in [40, 65]; otherwise neutral -- the check
order is the tie-break, so RSI 90 with divergence true (both weak paths and
overbought qualify) yields weak, divergence/overbought dominating the
oversold and neutral outcomes. -/
theorem momentum_health_cascade :
    (∀ vd : Option Bool, calculate_momentum_health none vd = "unknown")
    ∧ (∀ (r : ℚ) (vd : Option Bool), vd = some true ∨ 75 < r →
        calculate_momentum_health (some r) vd = "weak")
    ∧ (∀ (r : ℚ) (vd : Option Bool), vd ≠ some true → ¬ 75 < r → r < 30 →
        calculate_momentum_health (some r) vd = "oversold but healthy")
    ∧ (∀ (r : ℚ) (vd : Option Bool), vd ≠ some true → ¬ 75 < r → ¬ r < 30 →
        40 ≤ r ∧ r ≤ 65 → calculate_momentum_health (some r) vd = "strong")
    ∧ (∀ (r : ℚ) (vd : Option Bool), vd ≠ some true → ¬ 75 < r → ¬ r < 30 →
        ¬ (40 ≤ r ∧ r ≤ 65) → calculate_momentum_health (some r) vd = "neutral")
    ∧ calculate_momentum_health (some 90) (some true) = "weak" := by
  refine ⟨fun vd => rfl, ?_, ?_, ?_, ?_, rfl⟩
  · intro r vd h
    rcases h with h | h
    · simp [calculate_momentum_health, h]
    · by_cases hd : vd = some true <;> simp [calculate_momentum_health, hd, h]
  · intro r vd hd h75 h30
    simp [calculate_momentum_health, hd, h75, h30]
  · intro r vd hd h75 h30 hs
    simp [calculate_momentum_health, hd, h75, h30, hs.1, hs.2]
  · intro r vd hd h75 h30 hs
    simp [calculate_momentum_health, hd, h75, h30, hs]

/-- Witness for C8: each branch of the cascade exercised at a concrete
input. -/
theorem momentum_health_cascade_witness :
    calculate_momentum_health none none = "unknown"
    ∧ calculate_momentum_health (some 90) none = "weak"
    ∧ calculate_momentum_health (some 20) none = "oversold but healthy"
    ∧ calculate_momentum_health (some 50) (some false) = "strong"
    ∧ calculate_momentum_health (some 35) none = "neutral"
    ∧ calculate_momentum_health (some 90) (some true) = "weak" := by
  obtain ⟨h1, h2, h3, h4, h5, h6⟩ := momentum_health_cascade
  exact ⟨h1 none, h2 90 none (Or.inr (by norm_num)),
    h3 20 none (by simp) (by norm_num) (by norm_num),
    h4 50 (some false) (by simp) (by norm_num) (by norm_num)
      ⟨by norm_num, by norm_num⟩,
    h5 35 none (by simp) (by norm_num) (by norm_num)
      (by rintro ⟨h, -⟩; norm_num at h),
    h6⟩

/-! ## Claim C2 -/

/-- C2: the source never computes the BUY/SELL-AVOID/CAUTION rule -- the
published signal is the constant NEUTRAL for every input, so in particular
an input the spec's rule maps to BUY (score 5, multi-timeframe confirmed,
fear/greed 50, strong momentum) is published as NEUTRAL, which is not even
in the rule's codomain. -/
theorem published_signal_is_constant_neutral :
    (∀ (score : ℤ) (mtf : Bool) (fg : ℤ) (mh : String),
      published_signal score mtf fg mh = "NEUTRAL")
    ∧ published_signal 5 true 50 "strong" = "NEUTRAL"
    ∧ spec_signal 5 true 50 "strong" = "BUY"
    ∧ ("NEUTRAL" : String) ≠ "BUY" := by
  refine ⟨fun _ _ _ _ => rfl, rfl, ?_, by decide⟩
  unfold spec_signal
  rw [if_pos]
  exact ⟨by norm_num, rfl, by norm_num, rfl⟩

/-! ## Claim C6 -/

/-- C6: when the initial ticker fetch of a full cycle yields no data, the
cycle aborts before any mutation: the published snapshot, its coin list and
the cycle timestamp are all exactly the previous ones. -/
theorem fetch_failure_preserves_state (st : AppState) (ts : String)
    (fg : ℤ × String) (coins : List String) (summary : ℕ × ℕ) :
    update_data st [] ts fg coins summary = st
    ∧ (update_data st [] ts fg coins summary).sentiment_data
        = st.sentiment_data
    ∧ (update_data st [] ts fg coins summary).sentiment_data.processed_coins
        = st.sentiment_data.processed_coins
    ∧ (update_data st [] ts fg coins summary).last_full_update_time
        = st.last_full_update_time := by
  have h : update_data st [] ts fg coins summary = st := by
    simp [update_data]
  exact ⟨h, by rw [h], by rw [h], by rw [h]⟩

/-! ## Claim C3 -/

/-- A concrete previously published snapshot, used as the starting state of
a publish. -/
def oldSnap : SnapshotDict :=
  { timestamp := some "t0", fear_greed := some (50, "Neutral"),
    processed_coins := some ["BTC"], update_summary := some (1, 0) }

/-- C3 counterexample: the publish in `update_data` mutates the shared
snapshot dict in place (clear, then one key at a time), so a reader
interleaved with a concrete publish can observe a state -- here the cleared
dict -- that is neither the complete previous snapshot nor the complete new
one, refuting atomicity as claimed. -/
theorem publish_not_atomic_counterexample :
    ¬ (∀ s ∈ publishStates oldSnap "t1" (60, "Greed") ["ETH"] (2, 0),
        s = oldSnap ∨ s = newSnapshot "t1" (60, "Greed") ["ETH"] (2, 0)) := by
  decide

/-- C3 amended: for every publish over a previously populated snapshot, the
in-place clear-and-rebuild passes through an intermediate state that
differs from both the old and the new snapshot, so a concurrent reader can
observe a state that is neither. -/
theorem snapshot_publish_intermediate_state (old : SnapshotDict)
    (ts : String) (fg : ℤ × String) (coins : List String) (summary : ℕ × ℕ) :
    old.timestamp.isSome = true →
    ∃ s ∈ publishStates old ts fg coins summary,
      s ≠ old ∧ s ≠ newSnapshot ts fg coins summary := by
  intro h
  refine ⟨{ timestamp := none, fear_greed := none,
            processed_coins := none, update_summary := none }, ?_, ?_, ?_⟩
  · simp [publishStates]
  · intro he
    rw [← he] at h
    simp at h
  · intro he
    simp [newSnapshot] at he

/-- Witness for C3 amended: the intermediate-state existence at a concrete
publish. -/
theorem snapshot_publish_intermediate_state_witness :
    ∃ s ∈ publishStates oldSnap "t1" (60, "Greed") ["ETH"] (2, 0),
      s ≠ oldSnap ∧ s ≠ newSnapshot "t1" (60, "Greed") ["ETH"] (2, 0) :=
  snapshot_publish_intermediate_state oldSnap "t1" (60, "Greed") ["ETH"]
    (2, 0) rfl

/-! ## Claim C4 -/

/-- A concrete cached metrics dict. -/
def staleMetrics : Metrics := [("cg_community_score", 60)]

/-- C4 counterexample: with a cache entry exactly one TTL old and a failed
provider fetch, `fetch_coingecko_metrics` returns the empty dict (its
documented unavailable result), not the stale entry the claim promises. -/
theorem stale_cache_fetch_failure_counterexample :
    (fetch_coingecko_metrics (some "bitcoin") (some (0, staleMetrics))
        7200 none).1 = []
    ∧ ([] : Metrics) ≠ staleMetrics := by
  constructor
  · norm_num [fetch_coingecko_metrics, COIN_DETAIL_CACHE_DURATION]
  · intro he
    simp [staleMetrics, Metrics] at he

/-- C4 amended: a cache entry is served only while younger than the TTL;
whenever the provider fetch fails, the call returns the unavailable (empty)
result -- regardless of whether a stale entry exists, which is kept in the
cache but never returned. -/
theorem cache_fetch_failure_returns_unavailable :
    (∀ (cid : String) (t : ℚ) (data : Metrics) (now : ℚ)
        (fetchResult : Option Metrics),
      now - t < COIN_DETAIL_CACHE_DURATION →
      (fetch_coingecko_metrics (some cid) (some (t, data)) now fetchResult).1
        = data)
    ∧ (∀ (cid : String) (t : ℚ) (data : Metrics) (now : ℚ),
        ¬ now - t < COIN_DETAIL_CACHE_DURATION →
        fetch_coingecko_metrics (some cid) (some (t, data)) now none
          = ([], some (t, data)))
    ∧ (∀ (cid : String) (now : ℚ),
        fetch_coingecko_metrics (some cid) none now none = ([], none)) := by
  refine ⟨?_, ?_, fun cid now => rfl⟩
  · intro cid t data now fetchResult h
    simp [fetch_coingecko_metrics, h]
  · intro cid t data now h
    simp [fetch_coingecko_metrics, h]

/-- Witness for C4 amended: a fresh hit, a stale entry with a failed fetch,
and a missing entry with a failed fetch, at concrete times. -/
theorem cache_fetch_failure_returns_unavailable_witness :
    (fetch_coingecko_metrics (some "bitcoin") (some (0, staleMetrics))
        3600 none).1 = staleMetrics
    ∧ fetch_coingecko_metrics (some "bitcoin") (some (0, staleMetrics))
        7200 none = ([], some (0, staleMetrics))
    ∧ fetch_coingecko_metrics (some "bitcoin") none 7200 none = ([], none) := by
  obtain ⟨h1, h2, h3⟩ := cache_fetch_failure_returns_unavailable
  refine ⟨h1 "bitcoin" 0 staleMetrics 3600 none ?_,
    h2 "bitcoin" 0 staleMetrics 7200 ?_, h3 "bitcoin" 7200⟩
  · norm_num [COIN_DETAIL_CACHE_DURATION]
  · norm_num [COIN_DETAIL_CACHE_DURATION]

/-! ## Helper lemmas: RSI -/

/-- A difference list is one shorter than its series. -/
lemma diffs_length (l : List ℚ) : (diffs l).length = l.length - 1 := by
  induction l with
  | nil => rfl
  | cons a t ih =>
    cases t with
    | nil => rfl
    | cons b r =>
      simp only [diffs, List.length_cons] at ih ⊢
      omega

/-- The first differences of an extended series agree with those of the
series, as long as the window stays inside the original series. -/
lemma diffs_append_take :
    ∀ (n : ℕ) (l₁ l₂ : List ℚ), n + 1 ≤ l₁.length →
      (diffs (l₁ ++ l₂)).take n = (diffs l₁).take n := by
  intro n
  induction n with
  | zero =>
    intro l₁ l₂ h
    simp
  | succ n ih =>
    intro l₁ l₂ h
    cases l₁ with
    | nil => simp at h
    | cons a t =>
      cases t with
      | nil =>
        simp only [List.length_cons, List.length_nil] at h
        omega
      | cons b r =>
        simp only [List.cons_append, diffs, List.take_succ_cons]
        have hh : n + 1 ≤ (b :: r).length := by
          simp only [List.length_cons] at h ⊢
          omega
        exact congrArg (List.cons (b - a)) (ih (b :: r) l₂ hh)

/-- If the deltas of the first window are all non-negative, the first-window
average loss is exactly zero. -/
lemma avgFirst_losses_zero (delta : List ℚ)
    (h : ∀ d ∈ delta.take 14, 0 ≤ d) :
    avgFirst (losses delta) 14 = 0 := by
  unfold avgFirst losses
  rw [← List.map_take, List.sum_eq_zero, zero_div]
  intro x hx
  obtain ⟨d, hd, rfl⟩ := List.mem_map.mp hx
  rw [if_neg (not_lt.mpr (h d hd))]

/-- If no delta of the first window is positive, the first-window average
gain is exactly zero. -/
lemma avgFirst_gains_zero (delta : List ℚ)
    (h : ∀ d ∈ delta.take 14, ¬ 0 < d) :
    avgFirst (gains delta) 14 = 0 := by
  unfold avgFirst gains
  rw [← List.map_take, List.sum_eq_zero, zero_div]
  intro x hx
  obtain ⟨d, hd, rfl⟩ := List.mem_map.mp hx
  rw [if_neg (h d hd)]

/-- A positive delta in the first window makes the first-window average
gain non-zero. -/
lemma avgFirst_gains_ne_zero (delta : List ℚ) (d : ℚ)
    (hd : d ∈ delta.take 14) (hpos : 0 < d) :
    avgFirst (gains delta) 14 ≠ 0 := by
  unfold avgFirst gains
  rw [← List.map_take]
  have hnn : ∀ x ∈ (delta.take 14).map fun e => if 0 < e then e else 0, 0 ≤ x := by
    intro x hx
    obtain ⟨e, he, rfl⟩ := List.mem_map.mp hx
    by_cases hc : 0 < e <;> simp [hc]
    linarith
  have hmem : d ∈ (delta.take 14).map fun e => if 0 < e then e else 0 := by
    have h0 := List.mem_map_of_mem (fun e => if 0 < e then e else 0) hd
    simpa [hpos] using h0
  have hle := List.single_le_sum hnn d hmem
  have hsum : 0 < ((delta.take 14).map fun e => if 0 < e then e else 0).sum := by
    linarith
  positivity

/-- Too few closes make `calculate_rsi` unavailable. -/
lemma rsi_short (closes : List ℚ) (h : closes.length < 15) :
    calculate_rsi closes = none := by
  unfold calculate_rsi
  rw [if_pos (by omega : closes.length < 14 + 1)]

/-- With enough closes and first-window average loss zero, `calculate_rsi`
returns before the smoothing loop: 50 when the average gain is also zero,
100 otherwise. -/
lemma rsi_avg_loss_zero (closes : List ℚ) (hlen : 15 ≤ closes.length)
    (hl : avgFirst (losses (diffs closes)) 14 = 0) :
    calculate_rsi closes
      = if avgFirst (gains (diffs closes)) 14 = 0 then some 50 else some 100 := by
  simp only [calculate_rsi]
  rw [if_neg (by omega : ¬ closes.length < 14 + 1), if_pos hl]

/-! ## Claim C9 -/

/-- Closes rising by exactly 1 for 14 consecutive steps. -/
def climb15 : List ℚ := [1, 2, 3, 4, 5, 6, 7, 8, 9, 10, 11, 12, 13, 14, 15]

/-- Constant closes: every delta is zero. -/
def flat15 : List ℚ := [1, 1, 1, 1, 1, 1, 1, 1, 1, 1, 1, 1, 1, 1, 1]

/-- C9: `calculate_rsi` is unavailable (and total, hence never throwing or
producing NaN in this rational model) on series shorter than period + 1;
with enough data a first-window average loss of exactly 0 yields RSI 100,
or 50 when the average gain is also 0; in particular 14 consecutive equal
positive deltas with zero losses yield RSI 100. -/
theorem rsi_insufficient_and_zero_loss :
    (∀ closes : List ℚ, closes.length < 15 → calculate_rsi closes = none)
    ∧ (∀ closes : List ℚ, 15 ≤ closes.length →
        avgFirst (losses (diffs closes)) 14 = 0 →
        avgFirst (gains (diffs closes)) 14 ≠ 0 →
        calculate_rsi closes = some 100)
    ∧ (∀ closes : List ℚ, 15 ≤ closes.length →
        avgFirst (losses (diffs closes)) 14 = 0 →
        avgFirst (gains (diffs closes)) 14 = 0 →
        calculate_rsi closes = some 50)
    ∧ calculate_rsi climb15 = some 100 := by
  have hstep : diffs climb15 = [1, 1, 1, 1, 1, 1, 1, 1, 1, 1, 1, 1, 1, 1] := by
    norm_num [climb15, diffs]
  refine ⟨fun closes h => rsi_short closes h, ?_, ?_, ?_⟩
  · intro closes hlen hl hg
    rw [rsi_avg_loss_zero closes hlen hl, if_neg hg]
  · intro closes hlen hl hg
    rw [rsi_avg_loss_zero closes hlen hl, if_pos hg]
  · have h0 : avgFirst (losses (diffs climb15)) 14 = 0 := by
      apply avgFirst_losses_zero
      rw [hstep]
      intro d hd
      simp at hd
      rw [hd]
      norm_num
    have hg : avgFirst (gains (diffs climb15)) 14 ≠ 0 := by
      apply avgFirst_gains_ne_zero (diffs climb15) 1
      · rw [hstep]
        simp
      · norm_num
    rw [rsi_avg_loss_zero climb15 (by norm_num [climb15]) h0, if_neg hg]

/-- Witness for C9: the insufficient-data, the 100 and the 50 conjuncts at
concrete series. -/
theorem rsi_insufficient_and_zero_loss_witness :
    calculate_rsi [1, 2, 3] = none
    ∧ calculate_rsi climb15 = some 100
    ∧ calculate_rsi flat15 = some 50 := by
  have hflat : diffs flat15 = [0, 0, 0, 0, 0, 0, 0, 0, 0, 0, 0, 0, 0, 0] := by
    norm_num [flat15, diffs]
  obtain ⟨h1, -, h3, h4⟩ := rsi_insufficient_and_zero_loss
  refine ⟨h1 [1, 2, 3] (by norm_num), h4, ?_⟩
  have hz : ∀ d ∈ (diffs flat15).take 14, d = 0 := by
    rw [hflat]
    intro d hd
    simpa using hd
  refine h3 flat15 (by norm_num [flat15]) ?_ ?_
  · apply avgFirst_losses_zero
    intro d hd
    rw [hz d hd]
  · apply avgFirst_gains_zero
    intro d hd
    rw [hz d hd]
    norm_num

/-! ## Claim C10 -/

/-- C10: when the first 14 deltas contain no negative delta, `calculate_rsi`
decides its result from the first window alone -- 100 if some first-window
delta is positive, 50 if none is -- for every continuation of the series,
so losses after the first window cannot lower the returned RSI. -/
theorem rsi_first_window_determines_extremes (w rest : List ℚ)
    (hw : w.length = 15) (hnn : ∀ d ∈ diffs w, 0 ≤ d) :
    ((∃ d ∈ diffs w, 0 < d) → calculate_rsi (w ++ rest) = some 100)
    ∧ ((∀ d ∈ diffs w, ¬ 0 < d) → calculate_rsi (w ++ rest) = some 50) := by
  have hlen : 15 ≤ (w ++ rest).length := by
    rw [List.length_append, hw]
    omega
  have hdl : (diffs w).length = 14 := by
    rw [diffs_length, hw]
  have htake : (diffs (w ++ rest)).take 14 = diffs w := by
    rw [diffs_append_take 14 w rest (by omega)]
    exact List.take_of_length_le (by omega)
  have h0 : avgFirst (losses (diffs (w ++ rest))) 14 = 0 := by
    apply avgFirst_losses_zero
    rw [htake]
    exact hnn
  constructor
  · rintro ⟨d, hd, hdpos⟩
    have hg : avgFirst (gains (diffs (w ++ rest))) 14 ≠ 0 :=
      avgFirst_gains_ne_zero _ d (by rw [htake]; exact hd) hdpos
    rw [rsi_avg_loss_zero _ hlen h0, if_neg hg]
  · intro hnp
    have hg : avgFirst (gains (diffs (w ++ rest))) 14 = 0 :=
      avgFirst_gains_zero _ (by rw [htake]; exact hnp)
    rw [rsi_avg_loss_zero _ hlen h0, if_pos hg]

/-- Witness for C10: a rising window followed by a crash still reports RSI
100, and a flat window followed by arbitrary data reports 50. -/
theorem rsi_first_window_determines_extremes_witness :
    calculate_rsi (climb15 ++ [100, 0]) = some 100
    ∧ calculate_rsi (flat15 ++ [3, 7]) = some 50 := by
  have hstep : diffs climb15 = [1, 1, 1, 1, 1, 1, 1, 1, 1, 1, 1, 1, 1, 1] := by
    norm_num [climb15, diffs]
  have hflat : diffs flat15 = [0, 0, 0, 0, 0, 0, 0, 0, 0, 0, 0, 0, 0, 0] := by
    norm_num [flat15, diffs]
  constructor
  · have h := rsi_first_window_determines_extremes climb15 [100, 0]
      (by norm_num [climb15])
      (by rw [hstep]; intro d hd; simp at hd; rw [hd]; norm_num)
    exact h.1 ⟨1, by rw [hstep]; simp, by norm_num⟩
  · have h := rsi_first_window_determines_extremes flat15 [3, 7]
      (by norm_num [flat15])
      (by rw [hflat]; intro d hd; simp at hd; rw [hd])
    refine h.2 ?_
    rw [hflat]
    intro d hd
    simp at hd
    rw [hd]
    norm_num

end TradeAssist
